import Mathlib

/-!
Shallow embedding of `src/docker/ocr_server.py` (the EasyOCR HTTP service).

The file models the parsed JSON values handled by Flask, the `predict`
endpoint (`POST /predict/ocr`) with its try/except structure, the temp-file
bookkeeping around the model call, the reshaping of EasyOCR detections into
the PaddleOCR-compatible schema, and the `health` endpoint (`GET /`).

External effects are modelled explicitly:
  * `decode` is an oracle for `base64.b64decode` on strings; it returns the
    decoded bytes or raises (an `Except.error` carrying the stringified
    exception message).
  * `rt` is an oracle for `reader.readtext`; the temp file written for an
    image holds exactly the decoded bytes, so the oracle consumes those
    bytes and returns the list of detections, or raises.
  * the filesystem state `FS` tracks the set of live temporary files
    (identified by the counter value used as their unique name, standing in
    for `tempfile.NamedTemporaryFile`'s unique naming).
-/

/-- Parsed JSON values as Flask's `request.json` delivers them.  Numbers are
modelled as rationals (exact values; the service never computes with them). -/
inductive JVal where
  | null : JVal
  | bool : Bool → JVal
  | num : ℚ → JVal
  | str : String → JVal
  | arr : List JVal → JVal
  | obj : List (String × JVal) → JVal

/-- Python truthiness (`if not images` tests the negation of this). -/
def truthy : JVal → Bool
  | .null => false
  | .bool b => b
  | .num q => q != 0
  | .str s => s != ""
  | .arr xs => !xs.isEmpty
  | .obj fs => !fs.isEmpty

/-- `data.get(key, default)`: succeeds on a dict (JSON object), raising
`AttributeError` on any other value (e.g. when the body parsed to `null`). -/
def pyGet (data : JVal) (key : String) (default : JVal) : Except String JVal :=
  match data with
  | .obj fields => .ok ((fields.lookup key).getD default)
  | _ => .error "AttributeError"

/-- `for img_b64 in images`: the elements produced by iterating a Python
value.  Lists iterate their elements, strings their characters, dicts their
keys; other values raise `TypeError`. -/
def pyIter : JVal → Except String (List JVal)
  | .arr xs => .ok xs
  | .str s => .ok (s.data.map fun c => .str (String.mk [c]))
  | .obj fields => .ok (fields.map fun kv => .str kv.1)
  | _ => .error "TypeError"

/-- Raw image bytes produced by `base64.b64decode`. -/
abbrev Bytes : Type := List Nat

/-- One EasyOCR detection: `([[x1,y1],[x2,y2],[x3,y3],[x4,y4]], text,
confidence)`.  Coordinates may carry numpy sub-pixel (fractional) values. -/
structure Detection where
  bbox : List (ℚ × ℚ)
  text : String
  confidence : ℚ
deriving DecidableEq, Repr

/-- Python's `int()` on a numeric value: truncation toward zero, discarding
the fractional part. -/
def pyInt (q : ℚ) : ℤ :=
  if 0 ≤ q then Int.floor q else Int.ceil q

/-- One Recognition Result Item of the compatibility schema. -/
structure ResultItem where
  dt_polys : List (List (List ℤ))
  rec_texts : List String
  rec_scores : List ℚ
deriving DecidableEq, Repr

/-- The reshaping loop over `ocr_result`: for each detection, append
`[[int(p[0]), int(p[1])] for p in bbox]` to `dt_polys`, `str(text)` to
`rec_texts` and `float(confidence)` to `rec_scores` (on our model values
`str` and `float` are the identity coercions). -/
def reshapeDetections (dets : List Detection) : ResultItem :=
  { dt_polys := dets.map fun d => d.bbox.map fun p => [pyInt p.1, pyInt p.2]
    rec_texts := dets.map fun d => d.text
    rec_scores := dets.map fun d => d.confidence }

/-- Filesystem state: the names of the live temporary files (each
`NamedTemporaryFile` gets the current counter value as its unique name) and
the counter for the next fresh name. -/
structure FS where
  files : List ℕ
  counter : ℕ
deriving DecidableEq, Repr

/-- Well-formedness: every live temp-file name was produced by a past counter
value, so the next fresh name collides with no existing file. -/
def FS.wf (fs : FS) : Prop :=
  ∀ k ∈ fs.files, k < fs.counter

/-- `base64.b64decode(img_b64)` on a loop element: delegates to the decode
oracle on strings and raises `TypeError` on non-string values. -/
def decodeElem (decode : String → Except String Bytes) : JVal → Except String Bytes
  | .str s => decode s
  | _ => .error "TypeError"

/-- The per-image loop body, folded over the images list.  For each image:
decode its base64 (raising aborts the loop), write the bytes to a fresh temp
file, call `reader.readtext` under `try`, remove the temp file in `finally`
(so removal happens whether the call returned or raised), then reshape the
detections into a result item.  Returns the accumulated items in input order
or the first exception, together with the final filesystem state. -/
def processImages (decode : String → Except String Bytes)
    (rt : Bytes → Except String (List Detection)) :
    List JVal → FS → Except String (List ResultItem) × FS
  | [], fs => (.ok [], fs)
  | img :: rest, fs =>
    match decodeElem decode img with
    | .error e => (.error e, fs)
    | .ok bytes =>
      let path := fs.counter
      let fs1 : FS := ⟨fs.files ++ [path], fs.counter + 1⟩
      let r := rt bytes
      let fs2 : FS := ⟨fs1.files.erase path, fs1.counter⟩
      match r with
      | .error e => (.error e, fs2)
      | .ok dets =>
        match processImages decode rt rest fs2 with
        | (.error e, fs3) => (.error e, fs3)
        | (.ok items, fs3) => (.ok (reshapeDetections dets :: items), fs3)

/-- Outcome of the `try` block of `predict`: the early 400 return, a normal
completion with the results list, or an exception reaching `except`. -/
inductive TryOut where
  | badReq : TryOut
  | ok : List ResultItem → TryOut
  | exc : String → TryOut
deriving DecidableEq, Repr

/-- The `try` block of `predict`: `images = data.get('images', [])`, the
`if not images` early return, then the per-image loop. -/
def predictTry (decode : String → Except String Bytes)
    (rt : Bytes → Except String (List Detection))
    (data : JVal) (fs : FS) : TryOut × FS :=
  match pyGet data "images" (.arr []) with
  | .error e => (.exc e, fs)
  | .ok images =>
    if truthy images = false then (.badReq, fs)
    else
      match pyIter images with
      | .error e => (.exc e, fs)
      | .ok imgs =>
        match processImages decode rt imgs fs with
        | (.error e, fs') => (.exc e, fs')
        | (.ok items, fs') => (.ok items, fs')

/-- An HTTP response: status code and JSON body. -/
structure Response where
  status : ℕ
  body : JVal

/-- Serialization of a result item into its JSON body fragment. -/
def resultItemToJ (r : ResultItem) : JVal :=
  .obj
    [("dt_polys", .arr (r.dt_polys.map fun poly =>
        .arr (poly.map fun pt => .arr (pt.map fun c => JVal.num (c : ℚ))))),
     ("rec_texts", .arr (r.rec_texts.map .str)),
     ("rec_scores", .arr (r.rec_scores.map .num))]

/-- The `POST /predict/ocr` handler: run the `try` block, then translate its
outcome — the 400 body for missing/empty images, `jsonify` of the success
payload with the `"000"` sentinel, or the `except Exception` 500 body with
the stringified exception. -/
def predict (decode : String → Except String Bytes)
    (rt : Bytes → Except String (List Detection))
    (data : JVal) (fs : FS) : Response × FS :=
  match predictTry decode rt data fs with
  | (.badReq, fs') =>
    (⟨400, .obj [("status", .str "error"), ("msg", .str "No images provided")]⟩, fs')
  | (.ok items, fs') =>
    (⟨200, .obj [("status", .str "000"),
                 ("results", .arr (items.map resultItemToJ))]⟩, fs')
  | (.exc e, fs') =>
    (⟨500, .obj [("status", .str "error"), ("msg", .str e)]⟩, fs')

/-- The `GET /` handler: a constant JSON body, HTTP 200. -/
def health : Response :=
  ⟨200, .obj [("status", .str "ok"), ("service", .str "EasyOCR"),
              ("languages", .arr [.str "ch_sim", .str "en"])]⟩

/-- Field lookup in a JSON object body (`none` on non-objects). -/
def JVal.lookupField : JVal → String → Option JVal
  | .obj fields, k => fields.lookup k
  | _, _ => none

/-! ## Sanity-check examples (concrete evaluations of the embedding) -/

example :
    predict (fun _ => .ok [104, 105]) (fun _ => .ok [])
      (.obj [("images", .arr [.str "aGk="])]) ⟨[], 0⟩
    = (⟨200, .obj [("status", .str "000"),
        ("results", .arr [.obj [("dt_polys", .arr []), ("rec_texts", .arr []),
                                ("rec_scores", .arr [])]])]⟩, ⟨[], 1⟩) := rfl

example :
    predict (fun _ => .ok []) (fun _ => .ok [])
      (.obj [("images", .arr [])]) ⟨[], 0⟩
    = (⟨400, .obj [("status", .str "error"), ("msg", .str "No images provided")]⟩,
       ⟨[], 0⟩) := rfl

example :
    predict (fun _ => .ok []) (fun _ => .ok []) .null ⟨[], 0⟩
    = (⟨500, .obj [("status", .str "error"), ("msg", .str "AttributeError")]⟩,
       ⟨[], 0⟩) := rfl

example : pyInt (7/2) = 3 := by
  rw [pyInt, if_pos (by norm_num)]; norm_num

example : pyInt (-7/2) = -3 := by
  rw [pyInt, if_neg (by norm_num), Int.ceil_eq_iff] <;> norm_num

/-! ## Helper lemmas about the per-image loop -/

/-- On a successful run, the loop yields one item per image, index-aligned:
the i-th item is the reshaped model output for the i-th image. -/
theorem processImages_length_get (decode : String → Except String Bytes)
    (rt : Bytes → Except String (List Detection)) :
    ∀ (imgs : List JVal) (fs : FS) (items : List ResultItem) (fs' : FS),
      processImages decode rt imgs fs = (.ok items, fs') →
      items.length = imgs.length ∧
      ∀ i (hi : i < imgs.length) (hi' : i < items.length),
        ∃ b dets, decodeElem decode (imgs.get ⟨i, hi⟩) = .ok b ∧ rt b = .ok dets ∧
          items.get ⟨i, hi'⟩ = reshapeDetections dets := by
  intro imgs
  induction imgs with
  | nil =>
    intro fs items fs' h
    simp only [processImages, Prod.mk.injEq, Except.ok.injEq] at h
    obtain ⟨h1, h2⟩ := h
    subst h1
    exact ⟨rfl, fun i hi hi' => absurd hi (by simp)⟩
  | cons img rest ih =>
    intro fs items fs' h
    simp only [processImages] at h
    split at h
    · simp at h
    · rename_i bytes hd
      split at h
      · simp at h
      · rename_i dets hr
        split at h
        · simp at h
        · rename_i tailItems fs3 hrec
          simp only [Prod.mk.injEq, Except.ok.injEq] at h
          obtain ⟨h1, h2⟩ := h
          subst h1
          obtain ⟨ihlen, ihget⟩ := ih _ _ _ hrec
          refine ⟨by simp [ihlen], ?_⟩
          intro i hi hi'
          cases i with
          | zero => exact ⟨bytes, dets, hd, hr, rfl⟩
          | succ j =>
            have hj : j < rest.length := by simpa using hi
            have hj' : j < tailItems.length := by simpa using hi'
            exact ihget j hj hj'

/-- Every item of a successful run is the reshape of some model output. -/
theorem processImages_item_provenance (decode : String → Except String Bytes)
    (rt : Bytes → Except String (List Detection))
    (imgs : List JVal) (fs : FS) (items : List ResultItem) (fs' : FS)
    (hproc : processImages decode rt imgs fs = (.ok items, fs')) :
    ∀ r ∈ items, ∃ b dets, rt b = .ok dets ∧ r = reshapeDetections dets := by
  intro r hr
  obtain ⟨i, hi'⟩ := List.mem_iff_get.mp hr
  obtain ⟨hlen, hget⟩ := processImages_length_get decode rt imgs fs items fs' hproc
  have hi : (i : ℕ) < imgs.length := hlen ▸ i.2
  obtain ⟨b, dets, h1, h2, h3⟩ := hget i hi i.2
  refine ⟨b, dets, h2, ?_⟩
  rw [← hi']
  exact (Fin.eta i i.2) ▸ h3

/-- The loop restores the filesystem exactly (every temp file it creates is
removed), keeps the filesystem well-formed, and never reuses a name. -/
theorem processImages_files (decode : String → Except String Bytes)
    (rt : Bytes → Except String (List Detection)) :
    ∀ (imgs : List JVal) (fs : FS), FS.wf fs →
      (processImages decode rt imgs fs).2.files = fs.files ∧
      FS.wf (processImages decode rt imgs fs).2 ∧
      fs.counter ≤ (processImages decode rt imgs fs).2.counter := by
  intro imgs
  induction imgs with
  | nil =>
    intro fs hwf
    exact ⟨rfl, hwf, le_refl _⟩
  | cons img rest ih =>
    intro fs hwf
    simp only [processImages]
    split
    · exact ⟨rfl, hwf, le_refl _⟩
    · rename_i bytes hd
      have hnotmem : fs.counter ∉ fs.files := fun hmem => lt_irrefl _ (hwf _ hmem)
      have herase : (fs.files ++ [fs.counter]).erase fs.counter = fs.files := by
        rw [List.erase_append_right _ hnotmem, List.erase_cons_head, List.append_nil]
      have hwf2 : FS.wf ⟨(fs.files ++ [fs.counter]).erase fs.counter, fs.counter + 1⟩ := by
        intro k hk
        rw [herase] at hk
        exact Nat.lt_succ_of_lt (hwf _ hk)
      split
      · exact ⟨herase, hwf2, Nat.le_succ _⟩
      · rename_i dets hr
        obtain ⟨ih1, ih2, ih3⟩ :=
          ih ⟨(fs.files ++ [fs.counter]).erase fs.counter, fs.counter + 1⟩ hwf2
        split
        · rename_i e fs3 hrec
          rw [hrec] at ih1 ih2 ih3
          exact ⟨by simpa [herase] using ih1, ih2, le_trans (Nat.le_succ _) ih3⟩
        · rename_i tailItems fs3 hrec
          rw [hrec] at ih1 ih2 ih3
          exact ⟨by simpa [herase] using ih1, ih2, le_trans (Nat.le_succ _) ih3⟩

/-- The final filesystem of `predict` is the final filesystem of its `try`
block (the response translation touches no files). -/
theorem predict_snd_eq (decode : String → Except String Bytes)
    (rt : Bytes → Except String (List Detection)) (data : JVal) (fs : FS) :
    (predict decode rt data fs).2 = (predictTry decode rt data fs).2 := by
  rw [predict]
  split <;> rename_i heq <;> rw [heq]

/-! ## Claim theorems -/

/-- C8: every invocation of the health check returns HTTP 200 with body
exactly `{"status": "ok", "service": "EasyOCR", "languages": ["ch_sim",
"en"]}`; the handler is a constant, so the outcome is independent of any
model state and no error outcome exists. -/
theorem health_static :
    health = ⟨200, .obj [("status", .str "ok"), ("service", .str "EasyOCR"),
                         ("languages", .arr [.str "ch_sim", .str "en"])]⟩ := rfl

/-- C3: when the parsed JSON object lacks the "images" field or maps it to
the empty list, `predict` returns HTTP 400 with body exactly
`{"status": "error", "msg": "No images provided"}`, leaves the filesystem
untouched, and the result is the same constant for every decode and model
oracle (the model is never invoked); in particular the missing-field case
and the empty-list case behave identically. -/
theorem predict_no_images (decode : String → Except String Bytes)
    (rt : Bytes → Except String (List Detection))
    (fields : List (String × JVal)) (fs : FS)
    (h : fields.lookup "images" = none ∨ fields.lookup "images" = some (.arr [])) :
    predict decode rt (.obj fields) fs
      = (⟨400, .obj [("status", .str "error"),
                     ("msg", .str "No images provided")]⟩, fs) := by
  rcases h with h | h <;>
    simp [predict, predictTry, pyGet, h, truthy]

/-- Witness for C3: a concrete request without the "images" field. -/
theorem predict_no_images_witness :
    predict (fun _ => .ok []) (fun _ => .ok []) (.obj []) ⟨[], 0⟩
      = (⟨400, .obj [("status", .str "error"),
                     ("msg", .str "No images provided")]⟩, ⟨[], 0⟩) :=
  predict_no_images _ _ [] ⟨[], 0⟩ (Or.inl rfl)

/-- C10: the validation tests the "images" value for Python truthiness, so
any falsy value — null, false, 0, the empty string, or the empty list —
receives the same HTTP 400 response `{"status": "error", "msg": "No images
provided"}` as a missing field. -/
theorem predict_falsy_images (decode : String → Except String Bytes)
    (rt : Bytes → Except String (List Detection))
    (fields : List (String × JVal)) (fs : FS) (v : JVal)
    (hlk : fields.lookup "images" = some v)
    (hv : v = .null ∨ v = .bool false ∨ v = .num 0 ∨ v = .str "" ∨ v = .arr []) :
    predict decode rt (.obj fields) fs
      = (⟨400, .obj [("status", .str "error"),
                     ("msg", .str "No images provided")]⟩, fs) := by
  rcases hv with rfl | rfl | rfl | rfl | rfl <;>
    simp [predict, predictTry, pyGet, hlk, truthy]

/-- Witness for C10: a concrete request mapping "images" to null. -/
theorem predict_falsy_images_witness :
    predict (fun _ => .ok []) (fun _ => .ok [])
        (.obj [("images", .null)]) ⟨[], 0⟩
      = (⟨400, .obj [("status", .str "error"),
                     ("msg", .str "No images provided")]⟩, ⟨[], 0⟩) :=
  predict_falsy_images _ _ [("images", .null)] ⟨[], 0⟩ .null rfl (Or.inl rfl)

/-- C5: whenever the try block raises (any exception during processing),
`predict` returns HTTP 500 with body exactly `{"status": "error", "msg":
<stringified exception>}`, and that body has no "results" field — no
partial results survive a failed batch. -/
theorem predict_exception_500 (decode : String → Except String Bytes)
    (rt : Bytes → Except String (List Detection))
    (data : JVal) (fs : FS) (e : String) (fs' : FS)
    (h : predictTry decode rt data fs = (.exc e, fs')) :
    predict decode rt data fs
      = (⟨500, .obj [("status", .str "error"), ("msg", .str e)]⟩, fs')
    ∧ (JVal.obj [("status", .str "error"),
                 ("msg", .str e)]).lookupField "results" = none := by
  exact ⟨by simp [predict, h], rfl⟩

/-- Witness for C5: a request whose body parsed to null raises
`AttributeError` on `data.get`, yielding the 500 response. -/
theorem predict_exception_500_witness :
    predict (fun _ => .ok []) (fun _ => .ok []) .null ⟨[], 0⟩
      = (⟨500, .obj [("status", .str "error"),
                     ("msg", .str "AttributeError")]⟩, ⟨[], 0⟩)
    ∧ (JVal.obj [("status", .str "error"),
                 ("msg", .str "AttributeError")]).lookupField "results" = none :=
  predict_exception_500 _ _ .null ⟨[], 0⟩ "AttributeError" ⟨[], 0⟩ rfl

/-- C4: for a well-formed filesystem, a `predict` call leaves the set of
live temporary files exactly as it found it — every temp file created for
an image is removed after the model invocation, whether the model call (or
any later step) succeeded or raised, so no temp file leaks from a request. -/
theorem predict_temp_files_removed (decode : String → Except String Bytes)
    (rt : Bytes → Except String (List Detection))
    (data : JVal) (fs : FS) (hwf : FS.wf fs) :
    ((predict decode rt data fs).2).files = fs.files := by
  rw [predict_snd_eq]
  rw [predictTry]
  split
  · rfl
  · split
    · rfl
    · split
      · rfl
      · rename_i imgs hiter
        split
        · rename_i e fs2 hrec
          have hf := (processImages_files decode rt imgs fs hwf).1
          rw [hrec] at hf
          exact hf
        · rename_i items fs2 hrec
          have hf := (processImages_files decode rt imgs fs hwf).1
          rw [hrec] at hf
          exact hf

/-- Witness for C4: a concrete request whose model call raises; the
filesystem still ends with no temp files. -/
theorem predict_temp_files_removed_witness :
    ((predict (fun _ => .ok [0]) (fun _ => .error "corrupt image")
        (.obj [("images", .arr [.str "AAAA"])]) ⟨[], 0⟩).2).files = [] :=
  predict_temp_files_removed _ _ _ ⟨[], 0⟩ (by intro k hk; simp at hk)

/-- C1: for a request whose "images" field is a non-empty list of base64
strings and whose processing raises no exception, the response is HTTP 200
whose "results" list serializes exactly the produced items; there are as
many items as input images, and the i-th item is the reshaped model output
(decode, then readtext, then reshape) for the i-th input image. -/
theorem predict_success_results (decode : String → Except String Bytes)
    (rt : Bytes → Except String (List Detection))
    (data : JVal) (imgs : List JVal) (fs : FS)
    (items : List ResultItem) (fs' : FS)
    (hreq : pyGet data "images" (.arr []) = .ok (.arr imgs))
    (hne : imgs ≠ [])
    (hstr : ∀ v ∈ imgs, ∃ s, v = .str s)
    (hproc : processImages decode rt imgs fs = (.ok items, fs')) :
    predict decode rt data fs
      = (⟨200, .obj [("status", .str "000"),
                     ("results", .arr (items.map resultItemToJ))]⟩, fs')
    ∧ items.length = imgs.length
    ∧ ∀ i (hi : i < imgs.length) (hi' : i < items.length),
        ∃ b dets, decodeElem decode (imgs.get ⟨i, hi⟩) = .ok b ∧ rt b = .ok dets ∧
          items.get ⟨i, hi'⟩ = reshapeDetections dets := by
  have htry : predictTry decode rt data fs = (.ok items, fs') := by
    rw [predictTry, hreq]
    simp [truthy, hne, pyIter, hproc]
  refine ⟨by simp [predict, htry], ?_⟩
  exact processImages_length_get decode rt imgs fs items fs' hproc

/-- Witness for C1: one valid image, model returning zero detections. -/
theorem predict_success_results_witness :
    predict (fun _ => .ok [104, 105]) (fun _ => .ok [])
        (.obj [("images", .arr [.str "aGk="])]) ⟨[], 0⟩
      = (⟨200, .obj [("status", .str "000"),
          ("results", .arr ([reshapeDetections []].map resultItemToJ))]⟩,
         ⟨[], 1⟩) :=
  (predict_success_results (fun _ => .ok [104, 105]) (fun _ => .ok [])
    (.obj [("images", .arr [.str "aGk="])]) [.str "aGk="] ⟨[], 0⟩
    [reshapeDetections []] ⟨[], 1⟩ rfl (by simp)
    (by intro v hv; rw [List.mem_singleton] at hv; exact ⟨"aGk=", hv⟩) rfl).1

/-- C2: every result item of a successful run of the per-image loop comes
from a model output `dets` via the reshape step, and its three sequences
`dt_polys`, `rec_texts`, `rec_scores` all have length `dets.length` — one
entry in each per detection the model returned for that image. -/
theorem result_item_lengths (decode : String → Except String Bytes)
    (rt : Bytes → Except String (List Detection))
    (imgs : List JVal) (fs : FS) (items : List ResultItem) (fs' : FS)
    (hproc : processImages decode rt imgs fs = (.ok items, fs')) :
    ∀ r ∈ items, ∃ b dets, rt b = .ok dets ∧ r = reshapeDetections dets ∧
      r.dt_polys.length = dets.length ∧ r.rec_texts.length = dets.length ∧
      r.rec_scores.length = dets.length := by
  intro r hr
  obtain ⟨b, dets, h1, h2⟩ :=
    processImages_item_provenance decode rt imgs fs items fs' hproc r hr
  subst h2
  exact ⟨b, dets, h1, rfl, by simp [reshapeDetections], by simp [reshapeDetections],
    by simp [reshapeDetections]⟩

/-- Witness for C2: a run over one image whose model output has a single
detection; the produced item's three sequences each have length one. -/
theorem result_item_lengths_witness :
    ∃ b : Bytes, ∃ dets : List Detection,
      (Except.ok [(⟨[], "hi", 9/10⟩ : Detection)]
          : Except String (List Detection)) = .ok dets
      ∧ reshapeDetections [⟨[], "hi", 9/10⟩] = reshapeDetections dets
      ∧ (reshapeDetections [(⟨[], "hi", 9/10⟩ : Detection)]).dt_polys.length
          = dets.length
      ∧ (reshapeDetections [(⟨[], "hi", 9/10⟩ : Detection)]).rec_texts.length
          = dets.length
      ∧ (reshapeDetections [(⟨[], "hi", 9/10⟩ : Detection)]).rec_scores.length
          = dets.length := by
  exact result_item_lengths (fun _ => .ok [1])
    (fun _ => .ok [⟨[], "hi", 9/10⟩]) [.str "x"] ⟨[], 0⟩
    [reshapeDetections [⟨[], "hi", 9/10⟩]] ⟨[], 1⟩ rfl
    (reshapeDetections [⟨[], "hi", 9/10⟩]) (List.mem_singleton.mpr rfl)

/-- The try block completes normally only through the per-image loop. -/
theorem predictTry_ok_inv (decode : String → Except String Bytes)
    (rt : Bytes → Except String (List Detection))
    (data : JVal) (fs : FS) (items : List ResultItem) (fs' : FS)
    (h : predictTry decode rt data fs = (.ok items, fs')) :
    ∃ imgs, processImages decode rt imgs fs = (.ok items, fs') := by
  rw [predictTry] at h
  split at h
  · simp at h
  · split at h
    · simp at h
    · split at h
      · simp at h
      · rename_i imgs hiter
        split at h
        · simp at h
        · rename_i items0 fs0 hrec
          simp only [Prod.mk.injEq, TryOut.ok.injEq] at h
          obtain ⟨h1, h2⟩ := h
          subst h1 h2
          exact ⟨imgs, hrec⟩

/-- C9: if the model only ever reports confidences in [0, 1], then on any
request the try block completes normally on, `predict` answers HTTP 200 and
every value in every item's `rec_scores` lies in [0, 1]. -/
theorem rec_scores_unit (decode : String → Except String Bytes)
    (rt : Bytes → Except String (List Detection))
    (data : JVal) (fs : FS) (items : List ResultItem) (fs' : FS)
    (hconf : ∀ b dets, rt b = .ok dets → ∀ d ∈ dets,
      0 ≤ d.confidence ∧ d.confidence ≤ 1)
    (htry : predictTry decode rt data fs = (.ok items, fs')) :
    predict decode rt data fs
      = (⟨200, .obj [("status", .str "000"),
                     ("results", .arr (items.map resultItemToJ))]⟩, fs')
    ∧ ∀ r ∈ items, ∀ q ∈ r.rec_scores, 0 ≤ q ∧ q ≤ 1 := by
  refine ⟨by simp [predict, htry], ?_⟩
  obtain ⟨imgs, hproc⟩ := predictTry_ok_inv decode rt data fs items fs' htry
  intro r hr q hq
  obtain ⟨b, dets, h1, h2⟩ :=
    processImages_item_provenance decode rt imgs fs items fs' hproc r hr
  subst h2
  simp only [reshapeDetections, List.mem_map] at hq
  obtain ⟨d, hd, hdq⟩ := hq
  subst hdq
  exact hconf b dets h1 d hd

/-- Witness for C9: one image, one detection with confidence 1/2. -/
theorem rec_scores_unit_witness :
    predict (fun _ => .ok [1]) (fun _ => .ok [⟨[], "t", 1/2⟩])
        (.obj [("images", .arr [.str "x"])]) ⟨[], 0⟩
      = (⟨200, .obj [("status", .str "000"),
          ("results", .arr ([reshapeDetections [⟨[], "t", 1/2⟩]].map
            resultItemToJ))]⟩, ⟨[], 1⟩) :=
  (rec_scores_unit (fun _ => .ok [1]) (fun _ => .ok [⟨[], "t", 1/2⟩])
    (.obj [("images", .arr [.str "x"])]) ⟨[], 0⟩
    [reshapeDetections [⟨[], "t", 1/2⟩]] ⟨[], 1⟩
    (by intro b dets h d hd
        simp only [Except.ok.injEq] at h
        subst h
        rw [List.mem_singleton] at hd
        subst hd
        constructor <;> norm_num)
    rfl).1

/-- C6: the reshape step maps each detection's quadrilateral pointwise to
`[int(p[0]), int(p[1])]` — every element of every quadrilateral in
`dt_polys` is a 2-element list of integers obtained by `pyInt`, the
truncation toward zero of the model's coordinate (the fractional part is
discarded: for nonnegative q it is the floor, within 1 below q and still
nonnegative; for negative q it is the ceiling, within 1 above q and still
nonpositive) — while `rec_texts` carries the detections' strings and
`rec_scores` the detections' numeric confidences unchanged. -/
theorem reshape_shapes (dets : List Detection) :
    (reshapeDetections dets).dt_polys
        = dets.map (fun d => d.bbox.map fun p => [pyInt p.1, pyInt p.2])
    ∧ (∀ poly ∈ (reshapeDetections dets).dt_polys, ∀ pt ∈ poly,
        ∃ q1 q2 : ℚ, pt = [pyInt q1, pyInt q2] ∧ pt.length = 2)
    ∧ (reshapeDetections dets).rec_texts = dets.map (fun d => d.text)
    ∧ (reshapeDetections dets).rec_scores = dets.map (fun d => d.confidence)
    ∧ (∀ q : ℚ, 0 ≤ q → (pyInt q : ℚ) ≤ q ∧ q - 1 < (pyInt q : ℚ) ∧ 0 ≤ pyInt q)
    ∧ (∀ q : ℚ, q < 0 →
        q ≤ (pyInt q : ℚ) ∧ (pyInt q : ℚ) < q + 1 ∧ pyInt q ≤ 0) := by
  refine ⟨rfl, ?_, rfl, rfl, ?_, ?_⟩
  · intro poly hp pt hpt
    simp only [reshapeDetections, List.mem_map] at hp
    obtain ⟨d, hd, hpoly⟩ := hp
    subst hpoly
    rw [List.mem_map] at hpt
    obtain ⟨p, hp2, hpt2⟩ := hpt
    subst hpt2
    exact ⟨p.1, p.2, rfl, rfl⟩
  · intro q hq
    rw [pyInt, if_pos hq]
    exact ⟨Int.floor_le q, Int.sub_one_lt_floor q, Int.floor_nonneg.mpr hq⟩
  · intro q hq
    rw [pyInt, if_neg (not_le.mpr hq)]
    refine ⟨Int.le_ceil q, Int.ceil_lt_add_one q, Int.ceil_le.mpr ?_⟩
    exact_mod_cast hq.le

/-- Witness for C6: a detection with the fractional coordinates 7/2 and
-7/2; its reshaped quadrilateral is their truncations. -/
theorem reshape_shapes_witness :
    (reshapeDetections [⟨[(7/2, -7/2)], "hi", 1⟩]).dt_polys
      = [[[pyInt (7/2), pyInt (-7/2)]]] := by
  exact (reshape_shapes [⟨[(7/2, -7/2)], "hi", 1⟩]).1

/-- When some image entry fails to decode, the loop raises: it ends in an
error whose message comes from a `TypeError`, a decode failure, or a model
failure on an earlier image. -/
theorem processImages_err_classify (decode : String → Except String Bytes)
    (rt : Bytes → Except String (List Detection)) :
    ∀ (imgs : List JVal) (fs : FS),
      (∃ v ∈ imgs, ∃ e, decodeElem decode v = .error e) →
      ∃ e fs', processImages decode rt imgs fs = (.error e, fs') ∧
        (e = "TypeError" ∨ (∃ s, decode s = .error e)
          ∨ (∃ b, rt b = .error e)) := by
  intro imgs
  induction imgs with
  | nil =>
    intro fs h
    obtain ⟨v, hv, _⟩ := h
    exact absurd hv (List.not_mem_nil v)
  | cons img rest ih =>
    intro fs hbad
    cases hd : decodeElem decode img with
    | error e =>
      refine ⟨e, fs, ?_, ?_⟩
      · simp only [processImages]
        rw [hd]
      · cases img with
        | str s =>
          simp only [decodeElem] at hd
          exact Or.inr (Or.inl ⟨s, hd⟩)
        | null =>
          simp only [decodeElem, Except.error.injEq] at hd
          exact Or.inl hd.symm
        | bool b =>
          simp only [decodeElem, Except.error.injEq] at hd
          exact Or.inl hd.symm
        | num q =>
          simp only [decodeElem, Except.error.injEq] at hd
          exact Or.inl hd.symm
        | arr xs =>
          simp only [decodeElem, Except.error.injEq] at hd
          exact Or.inl hd.symm
        | obj fl =>
          simp only [decodeElem, Except.error.injEq] at hd
          exact Or.inl hd.symm
    | ok bytes =>
      have hbadrest : ∃ v ∈ rest, ∃ e, decodeElem decode v = .error e := by
        obtain ⟨v, hv, e, he⟩ := hbad
        rcases List.mem_cons.mp hv with hveq | hv'
        · subst hveq
          rw [hd] at he
          exact absurd he (by simp)
        · exact ⟨v, hv', e, he⟩
      cases hr : rt bytes with
      | error e =>
        refine ⟨e, ⟨(fs.files ++ [fs.counter]).erase fs.counter, fs.counter + 1⟩,
          ?_, Or.inr (Or.inr ⟨bytes, hr⟩)⟩
        simp only [processImages, hd, hr]
      | ok dets =>
        obtain ⟨e, fs', hrec, hcl⟩ :=
          ih ⟨(fs.files ++ [fs.counter]).erase fs.counter, fs.counter + 1⟩ hbadrest
        refine ⟨e, fs', ?_, hcl⟩
        simp only [processImages, hd, hr, hrec]

/-- C7: every response of `predict` carries a "status" field that is the
literal string "000" exactly when processing succeeded (HTTP 200) and the
literal string "error" otherwise; moreover, when the "images" list contains
an entry that fails base64 decoding (and the oracles stringify exceptions
to non-empty messages), the response is HTTP 500 with status field "error"
and a non-empty "msg" — "000" never appears as its status. -/
theorem predict_status_sentinel (decode : String → Except String Bytes)
    (rt : Bytes → Except String (List Detection)) (data : JVal) (fs : FS) :
    (((predict decode rt data fs).1.body.lookupField "status" = some (.str "000")
        ∨ (predict decode rt data fs).1.body.lookupField "status"
            = some (.str "error"))
      ∧ ((predict decode rt data fs).1.body.lookupField "status"
            = some (.str "000")
          ↔ (predict decode rt data fs).1.status = 200))
    ∧ ∀ imgs : List JVal,
        pyGet data "images" (.arr []) = .ok (.arr imgs) →
        (∀ s e, decode s = .error e → e ≠ "") →
        (∀ b e, rt b = .error e → e ≠ "") →
        (∃ v ∈ imgs, ∃ e, decodeElem decode v = .error e) →
        (predict decode rt data fs).1.status = 500
        ∧ (predict decode rt data fs).1.body.lookupField "status"
            = some (.str "error")
        ∧ ∃ m, (predict decode rt data fs).1.body.lookupField "msg"
            = some (.str m) ∧ m ≠ "" := by
  constructor
  · rw [predict]
    rcases hp : predictTry decode rt data fs with ⟨out, fsx⟩
    cases out with
    | badReq =>
      refine ⟨Or.inr rfl, ?_, ?_⟩
      · intro h
        rw [show (JVal.obj [("status", .str "error"),
            ("msg", .str "No images provided")]).lookupField "status"
            = some (.str "error") from rfl] at h
        simp at h
      · intro h
        simp at h
    | ok items =>
      exact ⟨Or.inl rfl, fun _ => rfl, fun _ => rfl⟩
    | exc e =>
      refine ⟨Or.inr rfl, ?_, ?_⟩
      · intro h
        rw [show (JVal.obj [("status", .str "error"),
            ("msg", .str e)]).lookupField "status"
            = some (.str "error") from rfl] at h
        simp at h
      · intro h
        simp at h
  · intro imgs hreq hdne hrne hbad
    have hne : imgs ≠ [] := by
      rintro rfl
      obtain ⟨v, hv, _⟩ := hbad
      exact List.not_mem_nil v hv
    obtain ⟨e, fs', hrec, hcl⟩ := processImages_err_classify decode rt imgs fs hbad
    have htry : predictTry decode rt data fs = (.exc e, fs') := by
      rw [predictTry, hreq]
      simp [truthy, hne, pyIter, hrec]
    have hpred : predict decode rt data fs
        = (⟨500, .obj [("status", .str "error"), ("msg", .str e)]⟩, fs') := by
      simp [predict, htry]
    rw [hpred]
    refine ⟨rfl, rfl, e, rfl, ?_⟩
    rcases hcl with hcl | ⟨s, hs⟩ | ⟨b, hb⟩
    · subst hcl
      decide
    · exact hdne s e hs
    · exact hrne b e hb

/-- Witness for C7: a one-image request whose base64 decoding raises. -/
theorem predict_status_sentinel_witness :
    (predict (fun _ => .error "Invalid base64-encoded string") (fun _ => .ok [])
        (.obj [("images", .arr [.str "!!!"])]) ⟨[], 0⟩).1.status = 500
    ∧ (predict (fun _ => .error "Invalid base64-encoded string") (fun _ => .ok [])
        (.obj [("images", .arr [.str "!!!"])]) ⟨[], 0⟩).1.body.lookupField "status"
        = some (.str "error")
    ∧ ∃ m, (predict (fun _ => .error "Invalid base64-encoded string")
        (fun _ => .ok [])
        (.obj [("images", .arr [.str "!!!"])]) ⟨[], 0⟩).1.body.lookupField "msg"
        = some (.str m) ∧ m ≠ "" :=
  (predict_status_sentinel (fun _ => .error "Invalid base64-encoded string")
      (fun _ => .ok []) (.obj [("images", .arr [.str "!!!"])]) ⟨[], 0⟩).2
    [.str "!!!"] rfl
    (by intro s e h
        simp only [Except.error.injEq] at h
        subst h
        decide)
    (by intro b e h
        simp at h)
    ⟨.str "!!!", by simp, "Invalid base64-encoded string", rfl⟩
